import Mathlib

/-!
Verification of the Engagement Scoring & Achievement Engine of the
StockAnalyzer repository (`gamification.py`, gamification part of
`database.py`).

Shallow embedding conventions:
* Python dict `st.session_state['user_stats']` becomes the `Stats`
  structure, passed explicitly through every operation.
* Calendar dates (strings `"%Y-%m-%d"` compared after `strptime`) become
  integer day numbers; string equality of formatted dates coincides with
  equality of day numbers, and `(current_date - last_date).days` becomes
  integer subtraction.
* `datetime.now().hour` becomes an explicit `hour : Nat` argument.
* Python floats coming from sentiment scores / prices become `ℚ`.
* A yfinance lookup that raises (caught by `except: continue`) becomes an
  `Option` that is `none`; `dict.get(key, 0)` with an absent or `None`
  value becomes the value `0`, which has the same falsy behaviour in the
  guards the code performs.
* The sqlite `achievements` table (integer autoincrement key,
  `achievement_id TEXT NOT NULL`, no UNIQUE constraint) becomes a list of
  rows in insertion order.
-/

namespace StockAnalyzer

/-- One entry of the static `ACHIEVEMENTS` catalog of `gamification.py`
(the display-only `icon` field is omitted). -/
structure Achievement where
  id : String
  name : String
  description : String
  category : String
  points : Nat
deriving DecidableEq

/-- The `ACHIEVEMENTS` dict of `gamification.py`, as a list in the dict's
insertion (= iteration) order. -/
def ACHIEVEMENTS : List Achievement := [
  ⟨"starter", "Portfolio Pioneer", "Added your first stock to favorites", "basics", 10⟩,
  ⟨"diversified", "Sector Strategist", "Added stocks from at least 3 different sectors", "portfolio", 25⟩,
  ⟨"bull_catcher", "Bull Catcher", "Added a stock with over 80% bullish sentiment", "sentiment", 15⟩,
  ⟨"bear_tamer", "Bear Tamer", "Added a stock with over 60% bearish sentiment", "sentiment", 20⟩,
  ⟨"dividend_hunter", "Dividend Hunter", "Added 3 stocks with dividend yields over 3%", "income", 30⟩,
  ⟨"tech_enthusiast", "Tech Enthusiast", "Added 5 technology stocks to your portfolio", "sectors", 20⟩,
  ⟨"value_investor", "Value Investor", "Added 3 stocks with P/E ratio below market average", "strategy", 25⟩,
  ⟨"globetrotter", "Investment Globetrotter", "Added stocks from 3 different countries", "global", 30⟩,
  ⟨"night_owl", "Night Owl Trader", "Used the app after 10 PM", "usage", 10⟩,
  ⟨"early_bird", "Early Bird Investor", "Used the app before 7 AM", "usage", 10⟩,
  ⟨"ai_explorer", "AI Explorer", "Used the AI Screener 5 times", "tools", 20⟩,
  ⟨"sentiment_analyst", "Sentiment Analyst", "Checked sentiment for 10 different stocks", "tools", 25⟩,
  ⟨"portfolio_master", "Portfolio Master", "Added 10 stocks to your portfolio", "portfolio", 30⟩,
  ⟨"consecutive_login", "Market Regular", "Used the app for 3 consecutive days", "usage", 15⟩,
  ⟨"market_crusher", "Market Crusher", "Your portfolio outperformed the S&P 500", "performance", 50⟩]

/-- The catalog keys in iteration order. -/
def catalogKeys : List String := ACHIEVEMENTS.map Achievement.id

/-- `ACHIEVEMENTS[achievement_id]['points']` (0 for an id outside the
catalog; every id the engine awards is in the catalog). -/
def pointsOf (id : String) : Nat :=
  ((ACHIEVEMENTS.find? (fun a => a.id == id)).map Achievement.points).getD 0

/-- The `user_stats` dict of `gamification.py` (`initialize_user_stats`). -/
structure Stats where
  total_points : Nat
  achievements : List String
  stocks_analyzed : Nat
  sentiment_checks : Nat
  ai_screener_uses : Nat
  stocks_favorited : Nat
  portfolio_additions : Nat
  app_opens : Nat
  consecutive_days : Nat
  last_visit_date : Int
  sectors_in_portfolio : List String
  highest_sentiment_score : ℚ
  lowest_sentiment_score : ℚ
  search_history_count : Nat
deriving DecidableEq

/-- The default stats dict built by `initialize_user_stats` when nothing
is stored yet (`today` models `datetime.now().strftime("%Y-%m-%d")`). -/
def defaultUserStats (today : Int) : Stats where
  total_points := 0
  achievements := []
  stocks_analyzed := 0
  sentiment_checks := 0
  ai_screener_uses := 0
  stocks_favorited := 0
  portfolio_additions := 0
  app_opens := 0
  consecutive_days := 0
  last_visit_date := today
  sectors_in_portfolio := []
  highest_sentiment_score := 0
  lowest_sentiment_score := 0
  search_history_count := 0

/-- `update_visit_streak` of `gamification.py` with the current date passed
explicitly.  Mirrors the source: nothing changes on a same-day call; on a
different day the streak is incremented (difference exactly 1) or reset to
1 (difference greater than 1), and `last_visit_date` / `app_opens` are
always rewritten. -/
def update_visit_streak (today : Int) (s : Stats) : Stats :=
  if s.last_visit_date ≠ today then
    let day_diff : Int := today - s.last_visit_date
    let s1 :=
      if day_diff = 1 then { s with consecutive_days := s.consecutive_days + 1 }
      else if day_diff > 1 then { s with consecutive_days := 1 }
      else s
    { s1 with last_visit_date := today, app_opens := s1.app_opens + 1 }
  else s

/-- The sequential `if cond: new_achievements.append(id)` pattern of the
check functions: keep the ids whose guard is true, in order. -/
def condList (l : List (Bool × String)) : List String :=
  (l.filter (fun p => p.1)).map (fun p => p.2)

/-- The body of the award loop of the check functions: append the id to
`stats['achievements']` and add its catalog points to `total_points`
(`add_achievement` on the durable side is modelled separately). -/
def awardOne (id : String) (s : Stats) : Stats :=
  { s with achievements := s.achievements ++ [id],
           total_points := s.total_points + pointsOf id }

/-- `for achievement_id in new_achievements: ...` of the check functions. -/
def awardAll (ids : List String) (s : Stats) : Stats :=
  ids.foldl (fun s id => awardOne id s) s

/-- The `new_achievements` list built by `check_achievements` before the
award loop, in the order the source tests the conditions. -/
def checkAchievementsNew (hour : Nat) (s : Stats) : List String :=
  condList [
    (decide (0 < s.stocks_favorited) && !(decide ("starter" ∈ s.achievements)), "starter"),
    (decide (5 ≤ s.ai_screener_uses) && !(decide ("ai_explorer" ∈ s.achievements)), "ai_explorer"),
    (decide (10 ≤ s.sentiment_checks) && !(decide ("sentiment_analyst" ∈ s.achievements)), "sentiment_analyst"),
    (decide (10 ≤ s.portfolio_additions) && !(decide ("portfolio_master" ∈ s.achievements)), "portfolio_master"),
    (decide (3 ≤ s.consecutive_days) && !(decide ("consecutive_login" ∈ s.achievements)), "consecutive_login"),
    (decide (22 ≤ hour) && !(decide ("night_owl" ∈ s.achievements)), "night_owl"),
    (decide (hour < 7) && !(decide ("early_bird" ∈ s.achievements)), "early_bird")]

/-- `check_achievements` of `gamification.py`: evaluate the stat-threshold
rules against the current stats, award every newly satisfied one, and
return the list of newly earned ids. -/
def check_achievements (hour : Nat) (s : Stats) : List String × Stats :=
  let new := checkAchievementsNew hour s
  (new, awardAll new s)

/-- The yfinance `Ticker(t).info` fields `check_sector_achievements`
reads; an absent or `None` numeric field is 0 (same falsy behaviour). -/
structure StockInfo where
  dividendYield : ℚ
  trailingPE : ℚ
  country : String
deriving DecidableEq

/-- One portfolio holding as `check_sector_achievements` /
`calculate_portfolio_return` consume it.  `info = none` models a yfinance
call that raises (the source catches it and continues with the next
holding). -/
structure Holding where
  sector : String
  ticker : Option String
  info : Option StockInfo
  shares : ℚ
  current_price : ℚ
  purchase_price : ℚ
deriving DecidableEq

/-- Python `set.add`: sets are modelled as duplicate-free lists, adding an
element only when absent. -/
def insertSet (x : String) (l : List String) : List String :=
  if x ∈ l then l else l ++ [x]

/-- The accumulators of the holdings loop of `check_sector_achievements`. -/
structure SectorScan where
  sectors : List String
  tech_stocks : Nat
  dividend_stocks : Nat
  low_pe_stocks : Nat
  countries : List String
deriving DecidableEq

/-- One iteration of the holdings loop of `check_sector_achievements`. -/
def scanHolding (acc : SectorScan) (h : Holding) : SectorScan :=
  let sector := h.sector.trim
  let acc :=
    if sector ≠ "" ∧ sector ≠ "Unknown" then
      let acc1 := { acc with sectors := insertSet sector acc.sectors }
      if sector.toLower = "technology" ∨ sector.toLower = "information technology"
          ∨ sector.toLower = "tech" then
        { acc1 with tech_stocks := acc1.tech_stocks + 1 }
      else acc1
    else acc
  match h.ticker with
  | none => acc
  | some t =>
    if t = "" then acc
    else
      match h.info with
      | none => acc
      | some info =>
        let acc :=
          if info.dividendYield ≠ 0 ∧ info.dividendYield > 3 / 100 then
            { acc with dividend_stocks := acc.dividend_stocks + 1 }
          else acc
        let acc :=
          if info.trailingPE ≠ 0 ∧ info.trailingPE < 15 then
            { acc with low_pe_stocks := acc.low_pe_stocks + 1 }
          else acc
        if info.country.trim ≠ "" then
          { acc with countries := insertSet info.country acc.countries }
        else acc

/-- The `new_achievements` list of `check_sector_achievements`, in the
order the source tests the conditions (guards are evaluated against the
earned set captured before anything is awarded, like
`current_achievements` in the source). -/
def checkSectorNew (scan : SectorScan) (s : Stats) : List String :=
  condList [
    (decide (3 ≤ scan.sectors.length) && !(decide ("diversified" ∈ s.achievements)), "diversified"),
    (decide (5 ≤ scan.tech_stocks) && !(decide ("tech_enthusiast" ∈ s.achievements)), "tech_enthusiast"),
    (decide (3 ≤ scan.dividend_stocks) && !(decide ("dividend_hunter" ∈ s.achievements)), "dividend_hunter"),
    (decide (3 ≤ scan.low_pe_stocks) && !(decide ("value_investor" ∈ s.achievements)), "value_investor"),
    (decide (3 ≤ scan.countries.length) && !(decide ("globetrotter" ∈ s.achievements)), "globetrotter")]

/-- `check_sector_achievements` of `gamification.py` with the portfolio
holdings passed explicitly (the source fetches them from the database). -/
def check_sector_achievements (holdings : List Holding) (s : Stats) :
    List String × Stats :=
  if holdings = [] then ([], s)
  else
    let scan := holdings.foldl scanHolding ⟨[], 0, 0, 0, []⟩
    let new := checkSectorNew scan s
    let s1 := { s with sectors_in_portfolio := scan.sectors }
    (new, awardAll new s1)

/-- `check_sentiment_achievements` of `gamification.py`: update the
highest / lowest observed sentiment score (0 acts as the unset marker for
the lowest), then evaluate the two sentiment rules. -/
def check_sentiment_achievements (sentiment_score : ℚ) (sentiment_type : String)
    (s : Stats) : List String × Stats :=
  let s1 :=
    if sentiment_score > s.highest_sentiment_score then
      { s with highest_sentiment_score := sentiment_score }
    else s
  let s2 :=
    if s1.lowest_sentiment_score = 0 ∨ sentiment_score < s1.lowest_sentiment_score then
      { s1 with lowest_sentiment_score := sentiment_score }
    else s1
  let new := condList [
    (decide (sentiment_type = "bullish") && decide (sentiment_score ≥ 8 / 10)
       && !(decide ("bull_catcher" ∈ s.achievements)), "bull_catcher"),
    (decide (sentiment_type = "bearish") && decide (sentiment_score ≤ 4 / 10)
       && !(decide ("bear_tamer" ∈ s.achievements)), "bear_tamer")]
  (new, awardAll new s2)

/-- `calculate_portfolio_return` of `gamification.py`: total up value and
cost over the holdings whose three numeric fields are all truthy, then
return the percentage gain (0 on an empty portfolio or zero cost). -/
def calculate_portfolio_return (holdings : List Holding) : ℚ :=
  if holdings = [] then 0
  else
    let t := holdings.foldl
      (fun (acc : ℚ × ℚ) h =>
        if h.shares ≠ 0 ∧ h.current_price ≠ 0 ∧ h.purchase_price ≠ 0 then
          (acc.1 + h.shares * h.current_price, acc.2 + h.shares * h.purchase_price)
        else acc)
      (0, 0)
    if t.2 = 0 then 0 else (t.1 - t.2) / t.2 * 100

/-- `check_portfolio_performance` of `gamification.py` with the holdings
and the S&P-500 benchmark return passed explicitly. -/
def check_portfolio_performance (holdings : List Holding) (spy_return : ℚ)
    (s : Stats) : List String × Stats :=
  if holdings = [] then ([], s)
  else
    let portfolio_return := calculate_portfolio_return holdings
    if portfolio_return > spy_return ∧ portfolio_return > 0
        ∧ "market_crusher" ∉ s.achievements then
      (["market_crusher"], awardOne "market_crusher" s)
    else ([], s)

/- `increment_stat` specialised to each counter is inlined at the use
sites below, as `{ s with field := s.field + 1 }`. -/

/-- `track_favorite_added` of `gamification.py`: increments
`stocks_favorited` and runs `check_achievements`, whose returned list the
source discards; the function body has no `return`, so Python returns
`None`, modelled as `none`. -/
def track_favorite_added (hour : Nat) (s : Stats) : Option (List String) × Stats :=
  let s1 := { s with stocks_favorited := s.stocks_favorited + 1 }
  let r := check_achievements hour s1
  (none, r.2)

/-- `track_stock_analysis` of `gamification.py` (returns `None`). -/
def track_stock_analysis (hour : Nat) (s : Stats) : Option (List String) × Stats :=
  let s1 := { s with stocks_analyzed := s.stocks_analyzed + 1 }
  let r := check_achievements hour s1
  (none, r.2)

/-- `track_sentiment_check` of `gamification.py` (returns `None`). -/
def track_sentiment_check (hour : Nat) (s : Stats) : Option (List String) × Stats :=
  let s1 := { s with sentiment_checks := s.sentiment_checks + 1 }
  let r := check_achievements hour s1
  (none, r.2)

/-- `track_ai_screener_use` of `gamification.py` (returns `None`). -/
def track_ai_screener_use (hour : Nat) (s : Stats) : Option (List String) × Stats :=
  let s1 := { s with ai_screener_uses := s.ai_screener_uses + 1 }
  let r := check_achievements hour s1
  (none, r.2)

/-- `track_portfolio_addition` of `gamification.py` (returns `None`):
increments the counter, runs the sector pass, then the stat pass. -/
def track_portfolio_addition (hour : Nat) (holdings : List Holding) (s : Stats) :
    Option (List String) × Stats :=
  let s1 := { s with portfolio_additions := s.portfolio_additions + 1 }
  let r1 := check_sector_achievements holdings s1
  let r2 := check_achievements hour r1.2
  (none, r2.2)

/-- The tracked events of one session.  Each event carries the ambient
inputs the corresponding source function reads (current hour, portfolio
holdings, sentiment result, benchmark return, current date). -/
inductive Event where
  | stockAnalysis (hour : Nat)
  | sentimentChecked (hour : Nat)
  | aiScreenerUse (hour : Nat)
  | favoriteAdded (hour : Nat)
  | portfolioAddition (hour : Nat) (holdings : List Holding)
  | sentimentPass (score : ℚ) (stype : String)
  | performancePass (holdings : List Holding) (spy : ℚ)
  | checkOnly (hour : Nat)
  | visit (today : Int)
deriving DecidableEq

/-- Run one tracked event: the state transition each `track_*` /
`check_*` / `update_visit_streak` call performs, paired with the combined
newly-earned lists of the rule-evaluation passes the event runs. -/
def runEvent : Event → Stats → List String × Stats
  | .stockAnalysis hour, s =>
      check_achievements hour { s with stocks_analyzed := s.stocks_analyzed + 1 }
  | .sentimentChecked hour, s =>
      check_achievements hour { s with sentiment_checks := s.sentiment_checks + 1 }
  | .aiScreenerUse hour, s =>
      check_achievements hour { s with ai_screener_uses := s.ai_screener_uses + 1 }
  | .favoriteAdded hour, s =>
      check_achievements hour { s with stocks_favorited := s.stocks_favorited + 1 }
  | .portfolioAddition hour holdings, s =>
      let r1 := check_sector_achievements holdings
        { s with portfolio_additions := s.portfolio_additions + 1 }
      let r2 := check_achievements hour r1.2
      (r1.1 ++ r2.1, r2.2)
  | .sentimentPass score stype, s => check_sentiment_achievements score stype s
  | .performancePass holdings spy, s => check_portfolio_performance holdings spy s
  | .checkOnly hour, s => check_achievements hour s
  | .visit today, s => ([], update_visit_streak today s)

/-- Run a sequence of tracked events, concatenating the newly-earned
lists of all rule-evaluation passes. -/
def runEvents : List Event → Stats → List String × Stats
  | [], s => ([], s)
  | e :: es, s =>
      let r := runEvent e s
      let r2 := runEvents es r.2
      (r.1 ++ r2.1, r2.2)

/-- The score invariant of the spec: `total_points` equals the sum of
catalog points over the earned set. -/
def scoreInv (s : Stats) : Prop :=
  s.total_points = (s.achievements.map pointsOf).sum

/-- The sqlite `achievements` table of `database.py`: an autoincrement
key and the stored `achievement_id` per row, in insertion order. -/
structure AchievementsTable where
  nextId : Nat
  rows : List (Nat × String)
deriving DecidableEq

/-- `add_achievement` of `database.py`: a plain
`INSERT INTO achievements (achievement_id) VALUES (?)`.  The table has no
UNIQUE constraint on `achievement_id` and the function performs no
existence check, so the insert always succeeds and always adds a row. -/
def add_achievement (achievement_id : String) (t : AchievementsTable) :
    Bool × AchievementsTable :=
  (true, ⟨t.nextId + 1, t.rows ++ [(t.nextId, achievement_id)]⟩)

/-- Number of rows of the table holding a given `achievement_id`. -/
def rowsFor (id : String) (t : AchievementsTable) : Nat :=
  (t.rows.filter (fun r => r.2 == id)).length

/-- Sentiment passes over a sequence of sentiment results, keeping the
resulting stats (used for the extrema claims). -/
def runSentiments (scores : List (ℚ × String)) (s : Stats) : Stats :=
  scores.foldl (fun s p => (check_sentiment_achievements p.1 p.2 s).2) s

/-- Maximum of a list of rationals (0 for the empty list). -/
def listMax : List ℚ → ℚ
  | [] => 0
  | a :: t => t.foldl max a

/-- Minimum of a list of rationals (0 for the empty list). -/
def listMin : List ℚ → ℚ
  | [] => 0
  | a :: t => t.foldl min a

/-- Value side of the totals of `calculate_portfolio_return`. -/
def totalValue (holdings : List Holding) : ℚ :=
  (holdings.map (fun h =>
    if h.shares ≠ 0 ∧ h.current_price ≠ 0 ∧ h.purchase_price ≠ 0 then
      h.shares * h.current_price
    else 0)).sum

/-- Cost side of the totals of `calculate_portfolio_return`. -/
def totalCost (holdings : List Holding) : ℚ :=
  (holdings.map (fun h =>
    if h.shares ≠ 0 ∧ h.current_price ≠ 0 ∧ h.purchase_price ≠ 0 then
      h.shares * h.purchase_price
    else 0)).sum

/-! ### Basic lemmas about the award machinery -/

lemma condList_sublist (l : List (Bool × String)) :
    List.Sublist (condList l) (l.map (fun p => p.2)) := by
  unfold condList
  exact (List.filter_sublist l).map _

lemma condList_nodup {l : List (Bool × String)}
    (h : (l.map (fun p => p.2)).Nodup) : (condList l).Nodup :=
  List.Nodup.sublist (condList_sublist l) h

lemma mem_condList {a : String} {l : List (Bool × String)} :
    a ∈ condList l ↔ ∃ b, (b, a) ∈ l ∧ b = true := by
  unfold condList
  simp only [List.mem_map, List.mem_filter]
  constructor
  · rintro ⟨⟨b, x⟩, ⟨hm, hb⟩, rfl⟩
    exact ⟨b, hm, hb⟩
  · rintro ⟨b, hm, hb⟩
    exact ⟨(b, a), ⟨hm, hb⟩, rfl⟩

lemma condList_mem_iff {l : List (Bool × String)}
    (hnd : (l.map (fun p => p.2)).Nodup) {a : String} {b : Bool}
    (hm : (b, a) ∈ l) : a ∈ condList l ↔ b = true := by
  rw [mem_condList]
  constructor
  · rintro ⟨b2, hm2, hb2⟩
    have he : (b2, a) = (b, a) := List.inj_on_of_nodup_map hnd hm2 hm rfl
    injection he with h1 h2
    exact h1 ▸ hb2
  · intro hb
    exact ⟨b, hm, hb⟩

lemma condList_not_mem {l : List (Bool × String)} {m : List String}
    (hg : ∀ p ∈ l, p.1 = true → p.2 ∉ m) : ∀ a ∈ condList l, a ∉ m := by
  intro a ha
  obtain ⟨b, hm, hb⟩ := mem_condList.mp ha
  exact hg (b, a) hm hb

lemma awardAll_achievements (ids : List String) (s : Stats) :
    (awardAll ids s).achievements = s.achievements ++ ids := by
  induction ids generalizing s with
  | nil => simp [awardAll]
  | cons a t ih =>
    show (awardAll t (awardOne a s)).achievements = _
    rw [ih]
    simp [awardOne]

lemma awardAll_total (ids : List String) (s : Stats) :
    (awardAll ids s).total_points = s.total_points + (ids.map pointsOf).sum := by
  induction ids generalizing s with
  | nil => simp [awardAll]
  | cons a t ih =>
    show (awardAll t (awardOne a s)).total_points = _
    rw [ih]
    simp [awardOne, Nat.add_assoc]

lemma awardAll_highest (ids : List String) (s : Stats) :
    (awardAll ids s).highest_sentiment_score = s.highest_sentiment_score := by
  induction ids generalizing s with
  | nil => rfl
  | cons a t ih => exact ih (awardOne a s)

lemma awardAll_lowest (ids : List String) (s : Stats) :
    (awardAll ids s).lowest_sentiment_score = s.lowest_sentiment_score := by
  induction ids generalizing s with
  | nil => rfl
  | cons a t ih => exact ih (awardOne a s)

/-! ### Per-pass lemmas: each rule-evaluation pass appends its newly
earned ids (a duplicate-free list, disjoint from the already earned set)
to the earned set, and adds exactly their catalog points. -/

lemma checkAchievementsNew_nodup (hour : Nat) (s : Stats) :
    (checkAchievementsNew hour s).Nodup := by
  apply condList_nodup
  show (["starter", "ai_explorer", "sentiment_analyst", "portfolio_master",
    "consecutive_login", "night_owl", "early_bird"] : List String).Nodup
  decide

lemma checkAchievementsNew_not_mem (hour : Nat) (s : Stats) :
    ∀ a ∈ checkAchievementsNew hour s, a ∉ s.achievements := by
  apply condList_not_mem
  intro p hp hb
  simp only [List.mem_cons, List.not_mem_nil, or_false] at hp
  rcases hp with rfl | rfl | rfl | rfl | rfl | rfl | rfl <;>
    (simp only [Bool.and_eq_true, Bool.not_eq_true', decide_eq_false_iff_not,
      decide_eq_true_eq] at hb
     exact hb.2)

lemma check_achievements_ach (hour : Nat) (s : Stats) :
    (check_achievements hour s).2.achievements
      = s.achievements ++ (check_achievements hour s).1 := by
  simp [check_achievements, awardAll_achievements]

lemma check_achievements_total (hour : Nat) (s : Stats) :
    (check_achievements hour s).2.total_points
      = s.total_points + (((check_achievements hour s).1).map pointsOf).sum := by
  simp [check_achievements, awardAll_total]

lemma check_achievements_nodup (hour : Nat) (s : Stats)
    (h : s.achievements.Nodup) :
    ((check_achievements hour s).2.achievements).Nodup := by
  rw [check_achievements_ach]
  exact h.append (checkAchievementsNew_nodup hour s)
    (fun a ha hb => checkAchievementsNew_not_mem hour s a hb ha)

lemma checkSectorNew_nodup (scan : SectorScan) (s : Stats) :
    (checkSectorNew scan s).Nodup := by
  apply condList_nodup
  show (["diversified", "tech_enthusiast", "dividend_hunter", "value_investor",
    "globetrotter"] : List String).Nodup
  decide

lemma checkSectorNew_not_mem (scan : SectorScan) (s : Stats) :
    ∀ a ∈ checkSectorNew scan s, a ∉ s.achievements := by
  apply condList_not_mem
  intro p hp hb
  simp only [List.mem_cons, List.not_mem_nil, or_false] at hp
  rcases hp with rfl | rfl | rfl | rfl | rfl <;>
    (simp only [Bool.and_eq_true, Bool.not_eq_true', decide_eq_false_iff_not,
      decide_eq_true_eq] at hb
     exact hb.2)

lemma check_sector_achievements_ach (holdings : List Holding) (s : Stats) :
    (check_sector_achievements holdings s).2.achievements
      = s.achievements ++ (check_sector_achievements holdings s).1 := by
  simp only [check_sector_achievements]
  split
  · simp
  · simp [awardAll_achievements]

lemma check_sector_achievements_total (holdings : List Holding) (s : Stats) :
    (check_sector_achievements holdings s).2.total_points
      = s.total_points + (((check_sector_achievements holdings s).1).map pointsOf).sum := by
  simp only [check_sector_achievements]
  split
  · simp
  · simp [awardAll_total]

lemma check_sector_achievements_new_not_mem (holdings : List Holding) (s : Stats) :
    ∀ a ∈ (check_sector_achievements holdings s).1, a ∉ s.achievements := by
  simp only [check_sector_achievements]
  split
  · simp
  · exact checkSectorNew_not_mem _ s

lemma check_sector_achievements_nodup (holdings : List Holding) (s : Stats)
    (h : s.achievements.Nodup) :
    ((check_sector_achievements holdings s).2.achievements).Nodup := by
  rw [check_sector_achievements_ach]
  refine h.append ?_ (fun a ha hb => check_sector_achievements_new_not_mem holdings s a hb ha)
  simp only [check_sector_achievements]
  split
  · simp
  · exact checkSectorNew_nodup _ s

lemma check_sentiment_achievements_ach (score : ℚ) (ty : String) (s : Stats) :
    (check_sentiment_achievements score ty s).2.achievements
      = s.achievements ++ (check_sentiment_achievements score ty s).1 := by
  simp only [check_sentiment_achievements, awardAll_achievements]
  split <;> split <;> rfl

lemma check_sentiment_achievements_total (score : ℚ) (ty : String) (s : Stats) :
    (check_sentiment_achievements score ty s).2.total_points
      = s.total_points + (((check_sentiment_achievements score ty s).1).map pointsOf).sum := by
  simp only [check_sentiment_achievements, awardAll_total]
  split <;> split <;> rfl

lemma check_sentiment_achievements_new_not_mem (score : ℚ) (ty : String) (s : Stats) :
    ∀ a ∈ (check_sentiment_achievements score ty s).1, a ∉ s.achievements := by
  apply condList_not_mem
  intro p hp hb
  simp only [List.mem_cons, List.not_mem_nil, or_false] at hp
  rcases hp with rfl | rfl <;>
    (simp only [Bool.and_eq_true, Bool.not_eq_true', decide_eq_false_iff_not,
      decide_eq_true_eq] at hb
     exact hb.2)

lemma check_sentiment_achievements_nodup (score : ℚ) (ty : String) (s : Stats)
    (h : s.achievements.Nodup) :
    ((check_sentiment_achievements score ty s).2.achievements).Nodup := by
  rw [check_sentiment_achievements_ach]
  refine h.append ?_
    (fun a ha hb => check_sentiment_achievements_new_not_mem score ty s a hb ha)
  apply condList_nodup
  show (["bull_catcher", "bear_tamer"] : List String).Nodup
  decide

lemma check_portfolio_performance_ach (holdings : List Holding) (spy : ℚ) (s : Stats) :
    (check_portfolio_performance holdings spy s).2.achievements
      = s.achievements ++ (check_portfolio_performance holdings spy s).1 := by
  simp only [check_portfolio_performance]
  split
  · simp
  · split <;> simp [awardOne]

lemma check_portfolio_performance_total (holdings : List Holding) (spy : ℚ) (s : Stats) :
    (check_portfolio_performance holdings spy s).2.total_points
      = s.total_points
        + (((check_portfolio_performance holdings spy s).1).map pointsOf).sum := by
  simp only [check_portfolio_performance]
  split
  · simp
  · split <;> simp [awardOne]

lemma check_portfolio_performance_new_not_mem (holdings : List Holding) (spy : ℚ)
    (s : Stats) :
    ∀ a ∈ (check_portfolio_performance holdings spy s).1, a ∉ s.achievements := by
  simp only [check_portfolio_performance]
  split
  · simp
  · split
    · rename_i hc
      intro a ha
      simp only [List.mem_singleton] at ha
      subst ha
      exact hc.2.2
    · simp

lemma check_portfolio_performance_nodup (holdings : List Holding) (spy : ℚ) (s : Stats)
    (h : s.achievements.Nodup) :
    ((check_portfolio_performance holdings spy s).2.achievements).Nodup := by
  rw [check_portfolio_performance_ach]
  refine h.append ?_
    (fun a ha hb => check_portfolio_performance_new_not_mem holdings spy s a hb ha)
  simp only [check_portfolio_performance]
  split
  · simp
  · split <;> simp

lemma update_visit_streak_achievements (today : Int) (s : Stats) :
    (update_visit_streak today s).achievements = s.achievements := by
  simp only [update_visit_streak]
  split
  · split
    · rfl
    · split <;> rfl
  · rfl

lemma update_visit_streak_total (today : Int) (s : Stats) :
    (update_visit_streak today s).total_points = s.total_points := by
  simp only [update_visit_streak]
  split
  · split
    · rfl
    · split <;> rfl
  · rfl

/-! ### Event-level lemmas: every tracked event appends the newly earned
ids of its passes to the earned set, adds exactly their catalog points,
and keeps the earned set duplicate-free. -/

lemma runEvent_achievements (e : Event) (s : Stats) :
    (runEvent e s).2.achievements = s.achievements ++ (runEvent e s).1 := by
  cases e with
  | stockAnalysis hour => exact check_achievements_ach hour _
  | sentimentChecked hour => exact check_achievements_ach hour _
  | aiScreenerUse hour => exact check_achievements_ach hour _
  | favoriteAdded hour => exact check_achievements_ach hour _
  | portfolioAddition hour holdings =>
    simp only [runEvent]
    rw [check_achievements_ach, check_sector_achievements_ach]
    simp [List.append_assoc]
  | sentimentPass score stype => exact check_sentiment_achievements_ach score stype s
  | performancePass holdings spy => exact check_portfolio_performance_ach holdings spy s
  | checkOnly hour => exact check_achievements_ach hour s
  | visit today =>
    simp only [runEvent]
    rw [update_visit_streak_achievements]
    simp

lemma runEvent_total (e : Event) (s : Stats) :
    (runEvent e s).2.total_points
      = s.total_points + (((runEvent e s).1).map pointsOf).sum := by
  cases e with
  | stockAnalysis hour => exact check_achievements_total hour _
  | sentimentChecked hour => exact check_achievements_total hour _
  | aiScreenerUse hour => exact check_achievements_total hour _
  | favoriteAdded hour => exact check_achievements_total hour _
  | portfolioAddition hour holdings =>
    simp only [runEvent]
    rw [check_achievements_total, check_sector_achievements_total]
    simp [Nat.add_assoc]
  | sentimentPass score stype => exact check_sentiment_achievements_total score stype s
  | performancePass holdings spy => exact check_portfolio_performance_total holdings spy s
  | checkOnly hour => exact check_achievements_total hour s
  | visit today =>
    simp only [runEvent]
    rw [update_visit_streak_total]
    simp

lemma runEvent_nodup (e : Event) (s : Stats) (h : s.achievements.Nodup) :
    ((runEvent e s).2.achievements).Nodup := by
  cases e with
  | stockAnalysis hour => exact check_achievements_nodup hour _ h
  | sentimentChecked hour => exact check_achievements_nodup hour _ h
  | aiScreenerUse hour => exact check_achievements_nodup hour _ h
  | favoriteAdded hour => exact check_achievements_nodup hour _ h
  | portfolioAddition hour holdings =>
    exact check_achievements_nodup hour _ (check_sector_achievements_nodup holdings _ h)
  | sentimentPass score stype => exact check_sentiment_achievements_nodup score stype s h
  | performancePass holdings spy => exact check_portfolio_performance_nodup holdings spy s h
  | checkOnly hour => exact check_achievements_nodup hour s h
  | visit today =>
    show ((update_visit_streak today s).achievements).Nodup
    rw [update_visit_streak_achievements]
    exact h

lemma runEvents_achievements (es : List Event) (s : Stats) :
    (runEvents es s).2.achievements = s.achievements ++ (runEvents es s).1 := by
  induction es generalizing s with
  | nil => simp [runEvents]
  | cons e t ih =>
    show (runEvents t (runEvent e s).2).2.achievements
      = s.achievements ++ ((runEvent e s).1 ++ (runEvents t (runEvent e s).2).1)
    rw [ih, runEvent_achievements]
    simp [List.append_assoc]

lemma runEvents_nodup (es : List Event) (s : Stats) (h : s.achievements.Nodup) :
    ((runEvents es s).2.achievements).Nodup := by
  induction es generalizing s with
  | nil => exact h
  | cons e t ih => exact ih (runEvent e s).2 (runEvent_nodup e s h)

lemma runEvents_scoreInv (es : List Event) (s : Stats) (h : scoreInv s) :
    scoreInv (runEvents es s).2 := by
  induction es generalizing s with
  | nil => exact h
  | cons e t ih =>
    refine ih (runEvent e s).2 ?_
    unfold scoreInv at h ⊢
    rw [runEvent_total, runEvent_achievements, List.map_append, List.sum_append, h]

lemma check_achievements_fst (hour : Nat) (s : Stats) :
    (check_achievements hour s).1 = checkAchievementsNew hour s := rfl

/-- Which ids a `check_achievements` pass returns: exactly the rules
whose condition holds and whose id is not yet in the earned set. -/
lemma check_achievements_mem_iffs (hour : Nat) (s : Stats) :
    ("starter" ∈ (check_achievements hour s).1 ↔
      0 < s.stocks_favorited ∧ "starter" ∉ s.achievements) ∧
    ("ai_explorer" ∈ (check_achievements hour s).1 ↔
      5 ≤ s.ai_screener_uses ∧ "ai_explorer" ∉ s.achievements) ∧
    ("sentiment_analyst" ∈ (check_achievements hour s).1 ↔
      10 ≤ s.sentiment_checks ∧ "sentiment_analyst" ∉ s.achievements) ∧
    ("portfolio_master" ∈ (check_achievements hour s).1 ↔
      10 ≤ s.portfolio_additions ∧ "portfolio_master" ∉ s.achievements) ∧
    ("consecutive_login" ∈ (check_achievements hour s).1 ↔
      3 ≤ s.consecutive_days ∧ "consecutive_login" ∉ s.achievements) ∧
    ("night_owl" ∈ (check_achievements hour s).1 ↔
      22 ≤ hour ∧ "night_owl" ∉ s.achievements) ∧
    ("early_bird" ∈ (check_achievements hour s).1 ↔
      hour < 7 ∧ "early_bird" ∉ s.achievements) := by
  refine ⟨?_, ?_, ?_, ?_, ?_, ?_, ?_⟩ <;>
    (rw [check_achievements_fst, checkAchievementsNew, mem_condList]
     simp)

/-! ### Claim theorems -/

/-- C1: At-most-once awarding — for every sequence of tracked events
executed in one session (starting from the zero stats the engine
initializes), each achievement id appears at most once in the in-memory
earned set `stats['achievements']`, and at most once across the combined
newly-earned lists returned by all rule-evaluation passes
(`check_achievements`, `check_sector_achievements`,
`check_sentiment_achievements`, `check_portfolio_performance`). -/
theorem c1_at_most_once_awarding (events : List Event) (d : Int) :
    ((runEvents events (defaultUserStats d)).2.achievements).Nodup ∧
    ((runEvents events (defaultUserStats d)).1).Nodup := by
  have h0 : ((defaultUserStats d).achievements).Nodup := List.nodup_nil
  have h1 := runEvents_nodup events (defaultUserStats d) h0
  refine ⟨h1, ?_⟩
  rw [runEvents_achievements events (defaultUserStats d),
    show (defaultUserStats d).achievements = [] from rfl, List.nil_append] at h1
  exact h1

/-- C2: Score invariant — after initialization from zero stats,
`total_points` always equals the sum of catalog points over the earned
set; moreover every tracked event adds exactly the catalog points of the
ids it newly awards (and appends exactly those ids to the earned set),
and changes `total_points` in no other way. -/
theorem c2_score_invariant :
    (∀ (events : List Event) (d : Int),
      scoreInv (runEvents events (defaultUserStats d)).2) ∧
    (∀ (e : Event) (s : Stats),
      (runEvent e s).2.total_points
        = s.total_points + (((runEvent e s).1).map pointsOf).sum ∧
      (runEvent e s).2.achievements = s.achievements ++ (runEvent e s).1) := by
  refine ⟨fun events d => runEvents_scoreInv events _ ?_,
    fun e s => ⟨runEvent_total e s, runEvent_achievements e s⟩⟩
  show (0 : Nat) = (([] : List String).map pointsOf).sum
  rfl

/-- C3: Streak advance — a same-day call leaves the stats unchanged (in
particular `consecutive_days`); a call exactly one day after the stored
visit date increments `consecutive_days` and rewrites `last_visit_date`;
a call more than one day after resets `consecutive_days` to 1 and
rewrites `last_visit_date`. -/
theorem c3_streak_advance (s : Stats) (T : Int) :
    (T = s.last_visit_date → update_visit_streak T s = s) ∧
    (T = s.last_visit_date + 1 →
      (update_visit_streak T s).consecutive_days = s.consecutive_days + 1 ∧
      (update_visit_streak T s).last_visit_date = T) ∧
    (s.last_visit_date + 1 < T →
      (update_visit_streak T s).consecutive_days = 1 ∧
      (update_visit_streak T s).last_visit_date = T) := by
  refine ⟨?_, ?_, ?_⟩
  · intro h
    simp only [update_visit_streak]
    rw [if_neg (not_not_intro h.symm)]
  · intro h
    have hne : s.last_visit_date ≠ T := by omega
    have hd : T - s.last_visit_date = 1 := by omega
    simp only [update_visit_streak]
    rw [if_pos hne, hd]
    simp
  · intro h
    have hne : s.last_visit_date ≠ T := by omega
    have hd1 : ¬ (T - s.last_visit_date = 1) := by omega
    have hd2 : T - s.last_visit_date > 1 := by omega
    simp only [update_visit_streak]
    rw [if_pos hne, if_neg hd1, if_pos hd2]
    exact ⟨rfl, rfl⟩

/-- Witness for C3 at concrete dates: same day, next day, five days
later. -/
theorem c3_streak_advance_witness :
    (update_visit_streak 0 (defaultUserStats 0) = defaultUserStats 0) ∧
    ((update_visit_streak 1 (defaultUserStats 0)).consecutive_days
        = (defaultUserStats 0).consecutive_days + 1 ∧
      (update_visit_streak 1 (defaultUserStats 0)).last_visit_date = 1) ∧
    ((update_visit_streak 5 (defaultUserStats 0)).consecutive_days = 1 ∧
      (update_visit_streak 5 (defaultUserStats 0)).last_visit_date = 5) :=
  ⟨(c3_streak_advance (defaultUserStats 0) 0).1 (by decide),
   (c3_streak_advance (defaultUserStats 0) 1).2.1 (by decide),
   (c3_streak_advance (defaultUserStats 0) 5).2.2 (by decide)⟩

/-- C10: Clock rollback — when the current date is strictly earlier than
the stored `last_visit_date`, `update_visit_streak` leaves
`consecutive_days` unchanged but still overwrites `last_visit_date` with
the earlier date and still increments `app_opens`. -/
theorem c10_clock_rollback (s : Stats) (T : Int) (h : T < s.last_visit_date) :
    (update_visit_streak T s).consecutive_days = s.consecutive_days ∧
    (update_visit_streak T s).last_visit_date = T ∧
    (update_visit_streak T s).app_opens = s.app_opens + 1 := by
  have hne : s.last_visit_date ≠ T := by omega
  have hd1 : ¬ (T - s.last_visit_date = 1) := by omega
  have hd2 : ¬ (T - s.last_visit_date > 1) := by omega
  simp only [update_visit_streak]
  rw [if_pos hne, if_neg hd1, if_neg hd2]
  exact ⟨rfl, rfl, rfl⟩

/-- Witness for C10: the clock rolls back from day 5 to day 2. -/
theorem c10_clock_rollback_witness :
    (update_visit_streak 2 (defaultUserStats 5)).consecutive_days
      = (defaultUserStats 5).consecutive_days ∧
    (update_visit_streak 2 (defaultUserStats 5)).last_visit_date = 2 ∧
    (update_visit_streak 2 (defaultUserStats 5)).app_opens
      = (defaultUserStats 5).app_opens + 1 :=
  c10_clock_rollback (defaultUserStats 5) 2 (by decide)

/-- C6 counterexample: with `ai_screener_uses = 5` at hour 23 and nothing
earned yet, the pass returns `["ai_explorer", "night_owl"]`, although the
catalog iterates `night_owl` (position 8) before `ai_explorer`
(position 10) — so the returned list is not in catalog iteration order. -/
theorem c6_counterexample :
    (check_achievements 23 { defaultUserStats 0 with ai_screener_uses := 5 }).1
      = ["ai_explorer", "night_owl"] ∧
    catalogKeys.indexOf "night_owl" < catalogKeys.indexOf "ai_explorer" ∧
    ¬ ((check_achievements 23 { defaultUserStats 0 with ai_screener_uses := 5 }).1.Pairwise
        (fun a b => catalogKeys.indexOf a < catalogKeys.indexOf b)) := by
  refine ⟨by decide, by decide, ?_⟩
  have e : (check_achievements 23 { defaultUserStats 0 with ai_screener_uses := 5 }).1
      = ["ai_explorer", "night_owl"] := by decide
  rw [e]
  intro h
  have h2 := (List.pairwise_cons.mp h).1 "night_owl" (by simp)
  revert h2
  decide

/-- C6 (amended): within one `check_achievements` pass every rule whose
condition holds and whose id is not yet earned is awarded before the pass
returns (the earned set becomes the old set plus exactly the returned
ids), and the returned list is ordered by the fixed order in which the
function tests its rules — starter, ai_explorer, sentiment_analyst,
portfolio_master, consecutive_login, night_owl, early_bird — not by the
catalog iteration order. -/
theorem c6_award_batching_order (hour : Nat) (s : Stats) :
    (check_achievements hour s).2.achievements
      = s.achievements ++ (check_achievements hour s).1 ∧
    List.Sublist (check_achievements hour s).1
      ["starter", "ai_explorer", "sentiment_analyst", "portfolio_master",
        "consecutive_login", "night_owl", "early_bird"] ∧
    ("starter" ∈ (check_achievements hour s).1 ↔
      0 < s.stocks_favorited ∧ "starter" ∉ s.achievements) ∧
    ("ai_explorer" ∈ (check_achievements hour s).1 ↔
      5 ≤ s.ai_screener_uses ∧ "ai_explorer" ∉ s.achievements) ∧
    ("sentiment_analyst" ∈ (check_achievements hour s).1 ↔
      10 ≤ s.sentiment_checks ∧ "sentiment_analyst" ∉ s.achievements) ∧
    ("portfolio_master" ∈ (check_achievements hour s).1 ↔
      10 ≤ s.portfolio_additions ∧ "portfolio_master" ∉ s.achievements) ∧
    ("consecutive_login" ∈ (check_achievements hour s).1 ↔
      3 ≤ s.consecutive_days ∧ "consecutive_login" ∉ s.achievements) ∧
    ("night_owl" ∈ (check_achievements hour s).1 ↔
      22 ≤ hour ∧ "night_owl" ∉ s.achievements) ∧
    ("early_bird" ∈ (check_achievements hour s).1 ↔
      hour < 7 ∧ "early_bird" ∉ s.achievements) := by
  obtain ⟨h1, h2, h3, h4, h5, h6, h7⟩ := check_achievements_mem_iffs hour s
  exact ⟨check_achievements_ach hour s, condList_sublist _, h1, h2, h3, h4, h5, h6, h7⟩

/-- C8: Threshold boundary for `ai_explorer` — a pass with
`ai_screener_uses = 4` (id not yet earned) does not award `ai_explorer`; an
identical pass with `ai_screener_uses = 5` returns it and adds it to the
earned set. -/
theorem c8_ai_explorer_threshold (hour : Nat) (s : Stats)
    (h : "ai_explorer" ∉ s.achievements) :
    (s.ai_screener_uses = 4 → "ai_explorer" ∉ (check_achievements hour s).1) ∧
    (s.ai_screener_uses = 5 →
      "ai_explorer" ∈ (check_achievements hour s).1 ∧
      "ai_explorer" ∈ (check_achievements hour s).2.achievements) := by
  have hiff := (check_achievements_mem_iffs hour s).2.1
  constructor
  · intro h4 hm
    have := (hiff.mp hm).1
    omega
  · intro h5
    have hm : "ai_explorer" ∈ (check_achievements hour s).1 := hiff.mpr ⟨by omega, h⟩
    refine ⟨hm, ?_⟩
    rw [check_achievements_ach]
    exact List.mem_append_right _ hm

/-- Witness for C8 at `ai_screener_uses` 4 and 5 (hour 12, fresh stats). -/
theorem c8_ai_explorer_threshold_witness :
    ("ai_explorer" ∉
      (check_achievements 12 { defaultUserStats 0 with ai_screener_uses := 4 }).1) ∧
    ("ai_explorer" ∈
      (check_achievements 12 { defaultUserStats 0 with ai_screener_uses := 5 }).1 ∧
     "ai_explorer" ∈
      (check_achievements 12 { defaultUserStats 0 with ai_screener_uses := 5 }).2.achievements) :=
  ⟨(c8_ai_explorer_threshold 12 _ (by decide)).1 rfl,
   (c8_ai_explorer_threshold 12 _ (by decide)).2 rfl⟩

/-- C4 counterexample: appending `"starter"` twice to an empty
achievements table reports success both times but leaves two rows with
that achievement id — the second call is not a no-op and the stored state
differs from a single append. -/
theorem c4_counterexample :
    (add_achievement "starter"
        (add_achievement "starter" ⟨0, []⟩).2).1 = true ∧
    rowsFor "starter" (add_achievement "starter"
        (add_achievement "starter" ⟨0, []⟩).2).2 = 2 ∧
    (add_achievement "starter" (add_achievement "starter" ⟨0, []⟩).2).2
      ≠ (add_achievement "starter" ⟨0, []⟩).2 := by
  refine ⟨rfl, by decide, by decide⟩

/-- C4 (amended): `add_achievement` performs an unconditional insert and
reports success; calling it with an id that already exists in the table
adds another row for that id (the row count for the id always grows by
one), so duplicate suppression is left entirely to the callers' in-memory
earned-set guards. -/
theorem c4_append_not_idempotent (t : AchievementsTable) (id : String) :
    (add_achievement id t).1 = true ∧
    rowsFor id (add_achievement id t).2 = rowsFor id t + 1 := by
  refine ⟨rfl, ?_⟩
  unfold rowsFor add_achievement
  simp [List.filter_append]

/-- C5 counterexample: `track_favorite_added` has no `return` statement,
so starting from zero stats it returns `None` — not a sequence containing
`"starter"`. -/
theorem c5_counterexample :
    (track_favorite_added 12 (defaultUserStats 0)).1 = none ∧
    (track_favorite_added 12 (defaultUserStats 0)).1 ≠ some ["starter"] := by
  exact ⟨rfl, by decide⟩

/-- C5 (amended): every public `track_*` operation returns `None`,
discarding the newly-earned list its rule-evaluation pass computes; the
pass itself behaves as claimed: from zero stats the first
`track_favorite_added` call's `check_achievements` pass newly earns
exactly `"starter"` and `total_points` becomes 10, and the second call's
pass earns nothing, leaving `total_points` unchanged. -/
theorem c5_tracker_returns :
    (track_favorite_added 12 (defaultUserStats 0)).1 = none ∧
    (track_stock_analysis 12 (defaultUserStats 0)).1 = none ∧
    (track_sentiment_check 12 (defaultUserStats 0)).1 = none ∧
    (track_ai_screener_use 12 (defaultUserStats 0)).1 = none ∧
    (track_portfolio_addition 12 [] (defaultUserStats 0)).1 = none ∧
    (runEvent (.favoriteAdded 12) (defaultUserStats 0)).1 = ["starter"] ∧
    (runEvent (.favoriteAdded 12) (defaultUserStats 0)).2.total_points = 10 ∧
    (track_favorite_added 12 (defaultUserStats 0)).2
      = (runEvent (.favoriteAdded 12) (defaultUserStats 0)).2 ∧
    (runEvent (.favoriteAdded 12)
        ((runEvent (.favoriteAdded 12) (defaultUserStats 0)).2)).1 = [] ∧
    (runEvent (.favoriteAdded 12)
        ((runEvent (.favoriteAdded 12) (defaultUserStats 0)).2)).2.total_points = 10 := by
  refine ⟨rfl, rfl, rfl, rfl, rfl, by decide, by decide, by decide, by decide, by decide⟩

lemma check_sentiment_highest (score : ℚ) (ty : String) (s : Stats) :
    (check_sentiment_achievements score ty s).2.highest_sentiment_score
      = max s.highest_sentiment_score score := by
  simp only [check_sentiment_achievements, awardAll_highest, gt_iff_lt]
  rcases lt_or_ge s.highest_sentiment_score score with h1 | h1
  · rw [if_pos h1, max_eq_right h1.le]
    split <;> rfl
  · rw [if_neg (not_lt.mpr h1), max_eq_left h1]
    split <;> rfl

lemma check_sentiment_lowest (score : ℚ) (ty : String) (s : Stats)
    (hL : 0 < s.lowest_sentiment_score) :
    (check_sentiment_achievements score ty s).2.lowest_sentiment_score
      = min s.lowest_sentiment_score score := by
  simp only [check_sentiment_achievements, awardAll_lowest, gt_iff_lt]
  have hL0 : s.lowest_sentiment_score ≠ 0 := ne_of_gt hL
  rcases lt_or_ge s.highest_sentiment_score score with h1 | h1
  · rw [if_pos h1]
    split
    · rename_i h2
      have h2a : s.lowest_sentiment_score = 0 ∨ score < s.lowest_sentiment_score := h2
      rcases h2a with h | h
      · exact absurd h hL0
      · rw [min_eq_right h.le]
    · rename_i h2
      have h2a : ¬ (s.lowest_sentiment_score = 0 ∨ score < s.lowest_sentiment_score) := h2
      push_neg at h2a
      rw [min_eq_left h2a.2]
  · rw [if_neg (not_lt.mpr h1)]
    split
    · rename_i h2
      have h2a : s.lowest_sentiment_score = 0 ∨ score < s.lowest_sentiment_score := h2
      rcases h2a with h | h
      · exact absurd h hL0
      · rw [min_eq_right h.le]
    · rename_i h2
      have h2a : ¬ (s.lowest_sentiment_score = 0 ∨ score < s.lowest_sentiment_score) := h2
      push_neg at h2a
      rw [min_eq_left h2a.2]

lemma runSentiments_highest (scores : List (ℚ × String)) (s : Stats) :
    (runSentiments scores s).highest_sentiment_score
      = (scores.map Prod.fst).foldl max s.highest_sentiment_score := by
  induction scores generalizing s with
  | nil => rfl
  | cons p t ih =>
    show (runSentiments t (check_sentiment_achievements p.1 p.2 s).2).highest_sentiment_score = _
    rw [ih, check_sentiment_highest]
    rfl

lemma runSentiments_lowest (scores : List (ℚ × String)) (s : Stats)
    (hpos : ∀ p ∈ scores, 0 < p.1) (hL : 0 < s.lowest_sentiment_score) :
    (runSentiments scores s).lowest_sentiment_score
      = (scores.map Prod.fst).foldl min s.lowest_sentiment_score := by
  induction scores generalizing s with
  | nil => rfl
  | cons p t ih =>
    have hp : 0 < p.1 := hpos p (by simp)
    have hstep : (check_sentiment_achievements p.1 p.2 s).2.lowest_sentiment_score
        = min s.lowest_sentiment_score p.1 := check_sentiment_lowest p.1 p.2 s hL
    have hL2 : 0 < (check_sentiment_achievements p.1 p.2 s).2.lowest_sentiment_score := by
      rw [hstep]
      exact lt_min hL hp
    show (runSentiments t (check_sentiment_achievements p.1 p.2 s).2).lowest_sentiment_score = _
    rw [ih _ (fun q hq => hpos q (List.mem_cons_of_mem p hq)) hL2, hstep]
    rfl

/-- C7 counterexample: feeding the scores 0 then 1 (both in [0,1]) to
`check_sentiment_achievements` leaves `lowest_sentiment_score` at 1,
although the minimum score observed so far is 0 — the 0 sentinel makes the
stored minimum forget a genuine 0 score. -/
theorem c7_counterexample :
    (runSentiments [((0 : ℚ), "neutral"), (1, "neutral")]
        (defaultUserStats 0)).lowest_sentiment_score = 1 ∧
    listMin ([((0 : ℚ), "neutral"), (1, "neutral")].map Prod.fst) = 0 ∧
    ((1 : ℚ)) ≠ 0 := by
  refine ⟨by decide, by decide, by decide⟩

/-- C7 (amended): for every nonempty sequence of sentiment scores all
strictly positive, after processing the sequence from freshly initialized
stats, `highest_sentiment_score` is the maximum score observed and
`lowest_sentiment_score` is the minimum score observed (the first score
initializes both); a score equal to 0 is treated as the unset marker of
`lowest_sentiment_score` and breaks the minimum. -/
theorem c7_sentiment_extrema (first : ℚ × String) (rest : List (ℚ × String))
    (d : Int) (hpos : ∀ p ∈ first :: rest, 0 < p.1) :
    (runSentiments (first :: rest) (defaultUserStats d)).highest_sentiment_score
      = listMax ((first :: rest).map Prod.fst) ∧
    (runSentiments (first :: rest) (defaultUserStats d)).lowest_sentiment_score
      = listMin ((first :: rest).map Prod.fst) := by
  have hp : 0 < first.1 := hpos first (by simp)
  have h1h : (check_sentiment_achievements first.1 first.2 (defaultUserStats d)).2.highest_sentiment_score
      = first.1 := by
    rw [check_sentiment_highest]
    exact max_eq_right hp.le
  have h1l : (check_sentiment_achievements first.1 first.2 (defaultUserStats d)).2.lowest_sentiment_score
      = first.1 := by
    simp only [check_sentiment_achievements, awardAll_lowest]
    rw [if_pos (Or.inl (show _ = (0 : ℚ) by split <;> rfl))]
  constructor
  · show (runSentiments rest (check_sentiment_achievements first.1 first.2 (defaultUserStats d)).2).highest_sentiment_score = _
    rw [runSentiments_highest, h1h]
    rfl
  · have hL1 : 0 < (check_sentiment_achievements first.1 first.2
        (defaultUserStats d)).2.lowest_sentiment_score := by
      rw [h1l]
      exact hp
    show (runSentiments rest (check_sentiment_achievements first.1 first.2 (defaultUserStats d)).2).lowest_sentiment_score = _
    rw [runSentiments_lowest rest _ (fun q hq => hpos q (List.mem_cons_of_mem first hq))
      hL1, h1l]
    rfl

/-- Witness for C7 (amended) on the positive scores 2 then 1. -/
theorem c7_sentiment_extrema_witness :
    (runSentiments [((2 : ℚ), "neutral"), (1, "neutral")]
        (defaultUserStats 0)).highest_sentiment_score
      = listMax ([((2 : ℚ), "neutral"), (1, "neutral")].map Prod.fst) ∧
    (runSentiments [((2 : ℚ), "neutral"), (1, "neutral")]
        (defaultUserStats 0)).lowest_sentiment_score
      = listMin ([((2 : ℚ), "neutral"), (1, "neutral")].map Prod.fst) :=
  c7_sentiment_extrema ((2 : ℚ), "neutral") [(1, "neutral")] 0 (by decide)

lemma portfolio_foldl (holdings : List Holding) (a b : ℚ) :
    holdings.foldl
      (fun (acc : ℚ × ℚ) h =>
        if h.shares ≠ 0 ∧ h.current_price ≠ 0 ∧ h.purchase_price ≠ 0 then
          (acc.1 + h.shares * h.current_price, acc.2 + h.shares * h.purchase_price)
        else acc)
      (a, b)
      = (a + totalValue holdings, b + totalCost holdings) := by
  induction holdings generalizing a b with
  | nil => simp [totalValue, totalCost]
  | cons h t ih =>
    by_cases hc : h.shares ≠ 0 ∧ h.current_price ≠ 0 ∧ h.purchase_price ≠ 0
    · show List.foldl _ (if _ then _ else _) t = _
      rw [if_pos hc, ih]
      simp only [totalValue, totalCost, List.map_cons, List.sum_cons, if_pos hc,
        Prod.mk.injEq]
      constructor <;> ring
    · show List.foldl _ (if _ then _ else _) t = _
      rw [if_neg hc, ih]
      simp only [totalValue, totalCost, List.map_cons, List.sum_cons, if_neg hc,
        Prod.mk.injEq]
      constructor <;> ring

/-- C9: Division guard in `calculate_portfolio_return` — the function
returns 0 whenever the holdings list is empty or the accumulated total
cost (the sum of `shares * purchase_price` over the holdings whose three
numeric fields are all non-zero) is 0, so the division is only ever
performed with a non-zero divisor; otherwise it returns
`(total_value - total_cost) / total_cost * 100`. -/
theorem c9_division_guard (holdings : List Holding) :
    ((holdings = [] ∨ totalCost holdings = 0) →
      calculate_portfolio_return holdings = 0) ∧
    (totalCost holdings ≠ 0 →
      calculate_portfolio_return holdings
        = (totalValue holdings - totalCost holdings) / totalCost holdings * 100) := by
  constructor
  · rintro (rfl | h0)
    · rfl
    · simp only [calculate_portfolio_return]
      split
      · rfl
      · rw [portfolio_foldl]
        simp [h0]
  · intro h0
    have hne : holdings ≠ [] := by
      rintro rfl
      exact h0 rfl
    simp only [calculate_portfolio_return]
    rw [if_neg hne, portfolio_foldl]
    simp [h0]

/-- Witness for C9: the empty portfolio returns 0, and a one-holding
portfolio (1 share, bought at 1, now worth 2) returns the percentage
formula with its non-zero cost. -/
theorem c9_division_guard_witness :
    calculate_portfolio_return [] = 0 ∧
    calculate_portfolio_return [⟨"Technology", some "AAPL", none, 1, 2, 1⟩]
      = (totalValue [⟨"Technology", some "AAPL", none, 1, 2, 1⟩]
          - totalCost [⟨"Technology", some "AAPL", none, 1, 2, 1⟩])
        / totalCost [⟨"Technology", some "AAPL", none, 1, 2, 1⟩] * 100 :=
  ⟨(c9_division_guard []).1 (Or.inl rfl),
   (c9_division_guard [⟨"Technology", some "AAPL", none, 1, 2, 1⟩]).2
     (by simp [totalCost])⟩

end StockAnalyzer
